import Mathlib

/-!
Shallow embedding of the Record_Backend authentication and support-request
controllers (Express/Mongoose application), together with models of the
external collaborators they use (password hasher, session-token
issuer/verifier, federated-identity verifier, document store).

Handlers are embedded as pure functions from the request data and the
current store state to an HTTP response (status plus JSON body) and the
new store state.  JavaScript truthiness on string-valued request fields is
modelled by `jsFalsy` on `Option String` (absent or empty string is falsy).
-/

/-! ### Generic string helpers -/

/-- Boolean test that `pat` is a prefix of `l` (over characters). -/
def listHeadMatch (pat : List Char) (l : List Char) : Bool :=
  match pat, l with
  | [], _ => true
  | _ :: _, [] => false
  | a :: as, b :: bs => a == b && listHeadMatch as bs

/-- Boolean test that `pat` occurs as a contiguous run inside `l`. -/
def listContainsRun (pat : List Char) (l : List Char) : Bool :=
  match l with
  | [] => pat.isEmpty
  | _ :: rest => listHeadMatch pat l || listContainsRun pat rest

/-- Boolean test that `pat` is a suffix of `l`. -/
def listTailMatch (pat : List Char) (l : List Char) : Bool :=
  listHeadMatch pat.reverse l.reverse

/-- `strContains s pat` models JavaScript `/pat/.test(s)` for a literal
alternative `pat`: substring containment. -/
def strContains (s pat : String) : Bool :=
  listContainsRun pat.toList s.toList

/-- JavaScript falsiness of an optional string-valued request field:
`undefined` and the empty string are falsy. -/
def jsFalsy : Option String → Bool
  | none => true
  | some s => s == ""

/-! ### Password hasher (bcryptjs)

Modelled from the spec: the password hasher is an external collaborator
(`bcryptjs`; spec section 4.1).  `hash` is modelled as an opaque salted
encoding of the plaintext and `verify` as the matching decode-and-compare;
`verify` never throws on a malformed hashed form, it returns false. -/

/-- Modelled from the spec: salted one-way hash (`bcrypt.hash`).  The salt is
passed explicitly to capture the per-call randomness of `bcrypt.genSalt`. -/
def bcryptHash (salt pw : String) : String :=
  salt ++ "#" ++ pw

/-- Modelled from the spec: hash verification (`bcrypt.compare`). -/
def bcryptCompare (pw hash : String) : Bool :=
  listTailMatch ("#" ++ pw).toList hash.toList

/-- `bcrypt.compare` against a stored hash that may be absent: per the
spec (4.1), verification of a malformed/absent hashed form returns false
rather than throwing. -/
def bcryptCompareOpt (pw : String) : Option String → Bool
  | none => false
  | some h => bcryptCompare pw h

/-! ### Session tokens (jsonwebtoken)

Modelled from the spec: the token issuer/verifier is the external
`jsonwebtoken` collaborator (spec sections 4.3 and 6).  A token is either a
structurally valid signed payload or a malformed string; verification
checks structure, then signature, then expiry, and the expiry check
rejects any token whose `exp` is not in the future. -/

/-- Payload of a session token: the bound user id, issued-at and absolute
expiry times (seconds). -/
structure JwtPayload where
  id : Nat
  iat : Nat
  exp : Nat
deriving DecidableEq, Repr

/-- A bearer token: a signed payload, or a string that does not parse. -/
inductive Token where
  | valid (payload : JwtPayload) (sig : String)
  | malformed (raw : String)
deriving DecidableEq, Repr

/-- Internal failure modes of token verification. -/
inductive JwtError where
  | malformed
  | signatureInvalid
  | expired
deriving DecidableEq, Repr

/-- Modelled from the spec: the signature over a payload under a secret. -/
def jwtMac (secret : String) (p : JwtPayload) : String :=
  secret ++ "." ++ toString p.id ++ "." ++ toString p.iat ++ "." ++ toString p.exp

/-- Modelled from the spec: `jwt.sign` under the process-wide secret. -/
def jwtSign (secret : String) (p : JwtPayload) : Token :=
  .valid p (jwtMac secret p)

/-- Modelled from the spec: `jwt.verify` — structure, then signature, then
expiry; a token is expired once the current time has reached `exp`. -/
def jwtVerify (secret : String) (now : Nat) : Token → Except JwtError JwtPayload
  | .malformed _ => .error .malformed
  | .valid p sig =>
    if sig ≠ jwtMac secret p then .error .signatureInvalid
    else if p.exp ≤ now then .error .expired
    else .ok p

/-- Thirty days in seconds, the meaning of `expiresIn: '30d'`. -/
def thirtyDays : Nat := 30 * 24 * 60 * 60

/-- `generateToken` from the auth controller: signs `{ id: userId }` with
an absolute expiry 30 days after issuance. -/
def generateToken (secret : String) (now : Nat) (userId : Nat) : Token :=
  jwtSign secret ⟨userId, now, now + thirtyDays⟩

/-! ### Federated identity verifier (google-auth-library)

Modelled from the spec: `client.verifyIdToken` is an external collaborator
(spec section 4.2).  Its outcome — verified claims or a failure — is passed
to the handler as data. -/

/-- Verified claims extracted from a federated identity assertion. -/
structure GooglePayload where
  email : String
  name : String
  sub : String
deriving DecidableEq, Repr

/-! ### Credential store (models/User.js)

Modelled from the spec: the User model file is not part of the provided
sources; the store is the document-store collaborator of spec sections 2
and 6, exposing lookup-by-email, lookup-by-id, create and update-in-place
over user-identity records. -/

/-- A stored user identity record. -/
structure User where
  _id : Nat
  name : String
  email : String
  password : Option String
  googleId : Option String
  authProvider : String
  createdAt : Nat
deriving DecidableEq, Repr

/-- The document store: the stored records plus the next fresh id. -/
structure DB where
  users : List User
  nextId : Nat
deriving DecidableEq, Repr

/-- The empty store. -/
def emptyDB : DB := ⟨[], 0⟩

/-- Modelled from the spec: `User.findByEmail`. -/
def findByEmail (db : DB) (email : String) : Option User :=
  db.users.find? (fun u => u.email == email)

/-- Modelled from the spec: `User.findById`. -/
def findById (db : DB) (id : Nat) : Option User :=
  db.users.find? (fun u => u._id == id)

/-- Modelled from the spec: `User.create` — inserts a record with a fresh id
and the creation timestamp. -/
def createUser (db : DB) (name email : String) (password : Option String)
    (googleId : Option String) (authProvider : String) (now : Nat) : User × DB :=
  let u : User := ⟨db.nextId, name, email, password, googleId, authProvider, now⟩
  (u, ⟨db.users ++ [u], db.nextId + 1⟩)

/-- Modelled from the spec: `user.save()` after in-place mutation — replaces
the stored record with the same id. -/
def updateUser (db : DB) (u : User) : DB :=
  ⟨db.users.map (fun v => if v._id == u._id then u else v), db.nextId⟩

/-! ### JSON responses -/

/-- The JSON values the handlers build (a token embedded in a response is
kept structured rather than serialised). -/
inductive Json where
  | str (s : String)
  | num (n : Nat)
  | jbool (b : Bool)
  | null
  | tok (t : Token)
  | obj (fields : List (String × Json))
  | arr (elems : List Json)

/-- An HTTP response: status code and JSON body. -/
structure Res where
  status : Nat
  body : Json

/-- Key lookup in a JSON object field list. -/
def jlookup (fields : List (String × Json)) (k : String) : Option Json :=
  (fields.find? (fun p => p.1 == k)).map (fun p => p.2)

/-- The common `{ success: false, message }` error body. -/
def errRes (status : Nat) (msg : String) : Res :=
  ⟨status, .obj [("success", .jbool false), ("message", .str msg)]⟩

/-- The user object placed in auth responses: id, name, email only. -/
def userSummary (u : User) : Json :=
  .obj [("id", .num u._id), ("name", .str u.name), ("email", .str u.email)]

/-- The user object placed in the profile response: adds `createdAt`. -/
def profileSummary (u : User) : Json :=
  .obj [("id", .num u._id), ("name", .str u.name), ("email", .str u.email),
    ("createdAt", .num u.createdAt)]

/-- Top-level field of a response body. -/
def bodyField (r : Res) (k : String) : Option Json :=
  match r.body with
  | .obj fields => jlookup fields k
  | _ => none

/-- The `message` string of a response body, when present. -/
def resMessage (r : Res) : Option String :=
  match bodyField r "message" with
  | some (.str s) => some s
  | _ => none

/-- The `error` string of a response body, when present. -/
def resErrorField (r : Res) : Option String :=
  match bodyField r "error" with
  | some (.str s) => some s
  | _ => none

/-- A field of the `data` object of a response body. -/
def resDataField (r : Res) (k : String) : Option Json :=
  match bodyField r "data" with
  | some (.obj fields) => jlookup fields k
  | _ => none

/-- The token returned under `data.token`, when present. -/
def resToken (r : Res) : Option Token :=
  match resDataField r "token" with
  | some (.tok t) => some t
  | _ => none

/-- The keys of the user object of a response (under `data.user`), or `[]`
when the response carries no user object. -/
def resUserKeys (r : Res) : List String :=
  match resDataField r "user" with
  | some (.obj fields) => fields.map (fun p => p.1)
  | _ => []

/-! ### Auth controller handlers -/

/-- `signup` (POST /api/auth/signup).  `createErr` injects a store failure
at `User.create` (the message of the thrown error), modelling the
try/catch; `salt` is the random salt drawn by `bcrypt.genSalt`. -/
def signup (db : DB) (secret salt : String) (now : Nat) (createErr : Option String)
    (name email password : Option String) : Res × DB :=
  if jsFalsy name || jsFalsy email || jsFalsy password then
    (errRes 400 "Please provide all required fields", db)
  else
    match findByEmail db (email.getD "") with
    | some _ => (errRes 400 "User already exists with this email", db)
    | none =>
      match createErr with
      | some _ => (errRes 500 "Error creating user", db)
      | none =>
        let hashed := bcryptHash salt (password.getD "")
        let created := createUser db (name.getD "") (email.getD "")
          (some hashed) none "local" now
        let token := generateToken secret now created.1._id
        (⟨201, .obj [("success", .jbool true),
          ("message", .str "User created successfully"),
          ("data", .obj [("user", userSummary created.1), ("token", .tok token)])]⟩,
         created.2)

/-- `login` (POST /api/auth/login). -/
def login (db : DB) (secret : String) (now : Nat)
    (email password : Option String) : Res :=
  if jsFalsy email || jsFalsy password then
    errRes 400 "Please provide email and password"
  else
    match findByEmail db (email.getD "") with
    | none => errRes 401 "Invalid credentials"
    | some user =>
      if user.authProvider == "google" && jsFalsy user.password then
        errRes 401 "Please sign in with Google"
      else if !(bcryptCompareOpt (password.getD "") user.password) then
        errRes 401 "Invalid credentials"
      else
        ⟨200, .obj [("success", .jbool true),
          ("message", .str "Login successful"),
          ("data", .obj [("user", userSummary user),
            ("token", .tok (generateToken secret now user._id))])]⟩

/-- `googleAuth` (POST /api/auth/google).  `ticket` is the outcome of the
external `client.verifyIdToken` call; a verifier failure is caught by the
surrounding try/catch and becomes the generic 500 response. -/
def googleAuth (db : DB) (secret : String) (now : Nat)
    (credential : Option String) (ticket : Except Unit GooglePayload) : Res × DB :=
  if jsFalsy credential then
    (errRes 400 "Google credential is required", db)
  else
    match ticket with
    | .error _ => (errRes 500 "Error with Google authentication", db)
    | .ok payload =>
      let found :=
        match findByEmail db payload.email with
        | none =>
          createUser db payload.name payload.email none (some payload.sub) "google" now
        | some u =>
          if u.authProvider == "local" then
            let u2 : User := { u with googleId := some payload.sub, authProvider := "google" }
            (u2, updateUser db u2)
          else (u, db)
      (⟨200, .obj [("success", .jbool true),
        ("message", .str "Google authentication successful"),
        ("data", .obj [("user", userSummary found.1),
          ("token", .tok (generateToken secret now found.1._id))])]⟩,
       found.2)

/-- `verifyToken` (POST /api/auth/verify). -/
def verifyToken (db : DB) (secret : String) (now : Nat)
    (token : Option Token) : Res :=
  match token with
  | none => errRes 400 "Token is required"
  | some t =>
    match jwtVerify secret now t with
    | .error _ => errRes 401 "Invalid or expired token"
    | .ok decoded =>
      match findById db decoded.id with
      | none => errRes 401 "Invalid token"
      | some user =>
        ⟨200, .obj [("success", .jbool true),
          ("data", .obj [("user", userSummary user)])]⟩

/-- `getUserProfile` (GET /api/auth/profile); `userId` is `req.user.id`
attached by the auth middleware. -/
def getUserProfile (db : DB) (userId : Nat) : Res :=
  match findById db userId with
  | none => errRes 404 "User not found"
  | some user =>
    ⟨200, .obj [("success", .jbool true),
      ("data", .obj [("user", profileSummary user)])]⟩

/-! ### Support controller (controllers/supportController.js) -/

/-- An uploaded file as multer presents it: original client-side name,
declared mimetype, size in bytes, and the server-side path multer chose. -/
structure FileInfo where
  originalname : String
  mimetype : String
  size : Nat
  path : String
deriving DecidableEq, Repr

/-- The suffix of a character list starting at its last dot, when any. -/
def lastDotSuffix : List Char → Option (List Char)
  | [] => none
  | c :: rest =>
    match lastDotSuffix rest with
    | some e => some e
    | none => if c = '.' then some (c :: rest) else none

/-- The suffix of a character list after its last slash, when any. -/
def afterLastSlashAux : List Char → Option (List Char)
  | [] => none
  | c :: rest =>
    match afterLastSlashAux rest with
    | some t => some t
    | none => if c = '/' then some rest else none

/-- The basename part of a path: the characters after the last slash. -/
def afterLastSlash (l : List Char) : List Char :=
  match afterLastSlashAux l with
  | some t => t
  | none => l

/-- `path.extname`: the suffix of the basename from its final dot, dot
included.  Empty when the basename contains no dot, when its only dot is
its leading character (a dotfile such as ".jpg" has no extension), or when
the basename is exactly "..". -/
def extname (s : String) : String :=
  let b := afterLastSlash s.toList
  match lastDotSuffix b with
  | none => ""
  | some e =>
    if e.length = b.length then ""
    else if b = ['.', '.'] then ""
    else String.mk e

/-- ASCII lower-casing of one character (`String.prototype.toLowerCase`
restricted to the ASCII range the filter compares against). -/
def charLower (c : Char) : Char :=
  if 'A' ≤ c ∧ c ≤ 'Z' then Char.ofNat (c.toNat + 32) else c

/-- ASCII lower-casing of a string. -/
def strLower (s : String) : String :=
  String.mk (s.toList.map charLower)

/-- The `/jpeg|jpg|png|gif|pdf|doc|docx|txt/` regex test: substring
containment of any alternative. -/
def allowedTypesTest (s : String) : Bool :=
  ["jpeg", "jpg", "png", "gif", "pdf", "doc", "docx", "txt"].any
    (fun pat => strContains s pat)

/-- `fileFilter`: both the lower-cased extension and the declared mimetype
must match the allowed-types regex. -/
def fileFilter (f : FileInfo) : Bool :=
  allowedTypesTest (strLower (extname f.originalname)) && allowedTypesTest f.mimetype

/-- The per-file size limit configured on multer: 5 MB. -/
def maxFileSize : Nat := 5 * 1024 * 1024

/-- The file-count limit configured on `upload.array('attachments', 5)`. -/
def maxFiles : Nat := 5

/-- Failure modes of the multer upload middleware. -/
inductive UploadError where
  | tooManyFiles
  | fileTooLarge
  | badType
deriving DecidableEq, Repr

/-- Modelled from the spec: the multer middleware over the configured
limits and `fileFilter` — the upload fails when more than 5 files arrive,
when a file exceeds 5 MB, or when `fileFilter` rejects a file. -/
def runUpload (files : List FileInfo) : Option UploadError :=
  if maxFiles < files.length then some .tooManyFiles
  else if files.any (fun f => maxFileSize < f.size) then some .fileTooLarge
  else if files.any (fun f => !fileFilter f) then some .badType
  else none

/-- The 400 response the handler builds for each upload failure
(`MulterError`s get the `File upload error: ` frame; the filter error is
passed through). -/
def uploadErrRes : UploadError → Res
  | .tooManyFiles => errRes 400 "File upload error: Unexpected field"
  | .fileTooLarge => errRes 400 "File upload error: File too large"
  | .badType => errRes 400 "Only images, PDFs, and documents are allowed!"

/-- A stored attachment sub-record. -/
structure Attachment where
  filename : String
  path : String
  mimetype : String
  size : Nat
deriving DecidableEq, Repr

/-- A stored support-request record. -/
structure SupportRequest where
  subject : String
  description : String
  phoneNumber : String
  email : String
  attachments : List Attachment
  userId : Option Nat
deriving DecidableEq, Repr

/-- The support-request document store. -/
structure SupportDB where
  requests : List SupportRequest
deriving DecidableEq, Repr

/-- The empty support store. -/
def emptySupportDB : SupportDB := ⟨[]⟩

/-- Serialisation of a stored support request for the 201 response body. -/
def supportRequestJson (r : SupportRequest) : Json :=
  .obj [("subject", .str r.subject), ("description", .str r.description),
    ("phoneNumber", .str r.phoneNumber), ("email", .str r.email),
    ("attachments", .arr (r.attachments.map (fun a =>
      .obj [("filename", .str a.filename), ("path", .str a.path),
        ("mimetype", .str a.mimetype), ("size", .num a.size)]))),
    ("userId", match r.userId with | some i => .num i | none => .null)]

/-- `createSupportRequest` (POST /api/support).  `createErr` injects a
store failure at `SupportRequest.create` (the thrown error's message);
`userId` is the optional authenticated user. -/
def createSupportRequest (sdb : SupportDB) (files : List FileInfo)
    (subject description phoneNumber email : Option String)
    (userId : Option Nat) (createErr : Option String) : Res × SupportDB :=
  match runUpload files with
  | some e => (uploadErrRes e, sdb)
  | none =>
    if jsFalsy subject || jsFalsy description || jsFalsy email then
      (⟨400, .obj [("success", .jbool false),
        ("message", .str "Subject, description, and email are required"),
        ("received", .obj [("subject", .jbool (!jsFalsy subject)),
          ("description", .jbool (!jsFalsy description)),
          ("email", .jbool (!jsFalsy email))])]⟩, sdb)
    else
      match createErr with
      | some m =>
        (⟨500, .obj [("success", .jbool false),
          ("message", .str "Failed to submit support request"),
          ("error", .str m)]⟩, sdb)
      | none =>
        let atts := files.map (fun f =>
          Attachment.mk f.originalname f.path f.mimetype f.size)
        let r : SupportRequest :=
          ⟨subject.getD "", description.getD "", phoneNumber.getD "",
            email.getD "", atts, userId⟩
        (⟨201, .obj [("success", .jbool true),
          ("message", .str "Support request submitted successfully"),
          ("data", supportRequestJson r)]⟩,
         ⟨sdb.requests ++ [r]⟩)

/-! ### The handlers' try/catch boundaries

Each controller function wraps its body in try/catch.  The wrappers below
embed that boundary for the handlers whose body, as embedded above, has no
failure-injection point of its own: `exn` carries the message of an error
thrown by a store/hasher call inside the try block, and when it is present
the catch block's fixed response is returned, independent of the message.
For the four admin support handlers only the catch-block response is
embedded — no claim here concerns their success paths. -/

/-- `login` including its try/catch (part_001 lines 131-137). -/
def loginHandler (db : DB) (secret : String) (now : Nat) (exn : Option String)
    (email password : Option String) : Res :=
  match exn with
  | some _ => errRes 500 "Error logging in"
  | none => login db secret now email password

/-- `verifyToken` including its try/catch (part_001 lines 239-244): a store
failure lands in the same catch as a verifier failure. -/
def verifyTokenHandler (db : DB) (secret : String) (now : Nat) (exn : Option String)
    (token : Option Token) : Res :=
  match exn with
  | some _ => errRes 401 "Invalid or expired token"
  | none => verifyToken db secret now token

/-- `getUserProfile` including its try/catch (part_001 lines 272-278). -/
def getUserProfileHandler (db : DB) (exn : Option String) (userId : Nat) : Res :=
  match exn with
  | some _ => errRes 500 "Error fetching user profile"
  | none => getUserProfile db userId

/-- The catch-block response of `getAllSupportRequests` (part_001 lines
419-426), as a function of the caught error's message. -/
def getAllSupportRequestsCatch (e : String) : Res :=
  ⟨500, .obj [("success", .jbool false),
    ("message", .str "Failed to fetch support requests"), ("error", .str e)]⟩

/-- The catch-block response of `getSupportRequest` (part_001 lines 446-453). -/
def getSupportRequestCatch (e : String) : Res :=
  ⟨500, .obj [("success", .jbool false),
    ("message", .str "Failed to fetch support request"), ("error", .str e)]⟩

/-- The catch-block response of `updateSupportRequestStatus` (part_001
lines 479-486). -/
def updateSupportRequestStatusCatch (e : String) : Res :=
  ⟨500, .obj [("success", .jbool false),
    ("message", .str "Failed to update support request"), ("error", .str e)]⟩

/-- The catch-block response of `deleteSupportRequest` (part_001 lines
516-523). -/
def deleteSupportRequestCatch (e : String) : Res :=
  ⟨500, .obj [("success", .jbool false),
    ("message", .str "Failed to delete support request"), ("error", .str e)]⟩

/-! ### Sequences of store-mutating auth operations -/

instance : DecidableEq (Except Unit GooglePayload) := fun a b =>
  match a, b with
  | .error x, .error y =>
    match x, y with
    | .unit, .unit => isTrue rfl
  | .ok x, .ok y =>
    if h : x = y then isTrue (by rw [h]) else isFalse (by intro hc; cases hc; exact h rfl)
  | .error _, .ok _ => isFalse (by intro hc; cases hc)
  | .ok _, .error _ => isFalse (by intro hc; cases hc)

/-- A store-mutating operation of the auth service, with all request data
and collaborator outcomes packaged as data. -/
inductive Op where
  | signup (secret salt : String) (now : Nat) (createErr : Option String)
      (name email password : Option String)
  | googleAuth (secret : String) (now : Nat) (credential : Option String)
      (ticket : Except Unit GooglePayload)
deriving DecidableEq, Repr

/-- The store state after one operation. -/
def applyOp (db : DB) : Op → DB
  | .signup secret salt now createErr name email password =>
    (signup db secret salt now createErr name email password).2
  | .googleAuth secret now credential ticket =>
    (googleAuth db secret now credential ticket).2

/-- The store state after a sequence of operations. -/
def applyOps (db : DB) (ops : List Op) : DB :=
  ops.foldl applyOp db

/-- Store well-formedness: pairwise distinct emails, pairwise distinct
ids, and every id below the fresh-id counter. -/
def StoreInv (db : DB) : Prop :=
  db.users.Pairwise (fun a b => a.email ≠ b.email) ∧
  db.users.Pairwise (fun a b => a._id ≠ b._id) ∧
  ∀ u ∈ db.users, u._id < db.nextId

/-! ### Helper lemmas -/

lemma listHeadMatch_self_append (l t : List Char) :
    listHeadMatch l (l ++ t) = true := by
  induction l with
  | nil => rfl
  | cons a as ih => simp [listHeadMatch, ih]

lemma bcryptCompare_hash (salt pw : String) :
    bcryptCompare pw (bcryptHash salt pw) = true := by
  unfold bcryptCompare bcryptHash listTailMatch
  have h1 : (salt ++ "#" ++ pw).toList = salt.toList ++ ("#" ++ pw).toList := by
    show (salt ++ "#" ++ pw).data = salt.data ++ ("#" ++ pw).data
    rw [String.data_append, String.data_append, String.data_append, List.append_assoc]
  rw [h1, List.reverse_append]
  exact listHeadMatch_self_append _ _

lemma listHeadMatch_cons_nil (a : Char) (as : List Char) :
    listHeadMatch (a :: as) [] = false := rfl

lemma bcryptCompare_empty (pw : String) : bcryptCompare pw "" = false := by
  unfold bcryptCompare listTailMatch
  have h1 : ("#" ++ pw).toList = '#' :: pw.toList := by
    show ("#" ++ pw).data = '#' :: pw.data
    rw [String.data_append]
    rfl
  show listHeadMatch (("#" ++ pw).toList).reverse ([] : List Char) = false
  rw [h1, List.reverse_cons]
  rcases hc : pw.toList.reverse ++ ['#'] with _ | ⟨a, as⟩
  · simp at hc
  · exact listHeadMatch_cons_nil a as

lemma bcryptCompareOpt_true_not_falsy (pw : String) (op : Option String)
    (h : bcryptCompareOpt pw op = true) : jsFalsy op = false := by
  cases op with
  | none => simp [bcryptCompareOpt] at h
  | some s =>
    simp only [jsFalsy, beq_eq_false_iff_ne, ne_eq]
    intro hs
    rw [hs] at h
    simp [bcryptCompareOpt, bcryptCompare_empty] at h

lemma find?_update_eq (l : List User) (u u2 : User) (e : String)
    (hfind : l.find? (fun v => v.email == e) = some u)
    (hids : l.Pairwise (fun a b => a._id ≠ b._id))
    (hemail : u2.email = u.email) (hid : u2._id = u._id) :
    (l.map (fun v => if v._id == u2._id then u2 else v)).find?
      (fun v => v.email == e) = some u2 := by
  induction l with
  | nil => simp at hfind
  | cons x xs ih =>
    by_cases hx : (x.email == e) = true
    · rw [@List.find?_cons_of_pos User (fun v => v.email == e) x xs hx] at hfind
      injection hfind with hxu
      subst hxu
      have hue : (fun v : User => v.email == e) u2 = true := by
        show (u2.email == e) = true
        rw [hemail]; exact hx
      have hxid : (x._id == u2._id) = true := by
        rw [hid]; exact beq_self_eq_true x._id
      simp only [List.map_cons, hxid, if_true]
      exact @List.find?_cons_of_pos User (fun v => v.email == e) u2 _ hue
    · rw [@List.find?_cons_of_neg User (fun v => v.email == e) x xs hx] at hfind
      have hmem : u ∈ xs := List.mem_of_find?_eq_some hfind
      have hxid : x._id ≠ u._id := (List.pairwise_cons.mp hids).1 u hmem
      have hxid2 : (x._id == u2._id) = false := by
        rw [hid]
        exact beq_eq_false_iff_ne.mpr hxid
      simp only [List.map_cons, hxid2, Bool.false_eq_true, if_false]
      rw [@List.find?_cons_of_neg User (fun v => v.email == e) x _ hx]
      exact ih hfind (List.pairwise_cons.mp hids).2

lemma storeInv_emptyDB : StoreInv emptyDB := by
  refine ⟨List.Pairwise.nil, List.Pairwise.nil, ?_⟩
  intro u hu
  simp [emptyDB] at hu

lemma storeInv_createUser (db : DB) (name email : String) (password googleId : Option String)
    (provider : String) (now : Nat)
    (hfind : findByEmail db email = none) (hinv : StoreInv db) :
    StoreInv (createUser db name email password googleId provider now).2 := by
  obtain ⟨he, hi, hn⟩ := hinv
  have hnone : ∀ a ∈ db.users, a.email ≠ email := by
    intro a ha
    have := List.find?_eq_none.mp hfind a ha
    simpa using this
  refine ⟨?_, ?_, ?_⟩
  · rw [createUser, List.pairwise_append]
    refine ⟨he, List.pairwise_singleton _ _, ?_⟩
    intro a ha b hb
    rw [List.mem_singleton] at hb
    subst hb
    exact hnone a ha
  · rw [createUser, List.pairwise_append]
    refine ⟨hi, List.pairwise_singleton _ _, ?_⟩
    intro a ha b hb
    rw [List.mem_singleton] at hb
    subst hb
    exact Nat.ne_of_lt (hn a ha)
  · intro u hu
    rw [createUser] at hu
    rcases List.mem_append.mp hu with h | h
    · exact Nat.lt_succ_of_lt (hn u h)
    · rw [List.mem_singleton] at h
      subst h
      exact Nat.lt_succ_self _

lemma storeInv_updateUser (db : DB) (u u2 : User)
    (hmem : u ∈ db.users) (hemail : u2.email = u.email) (hid : u2._id = u._id)
    (hinv : StoreInv db) : StoreInv (updateUser db u2) := by
  obtain ⟨he, hi, hn⟩ := hinv
  have hsym : Symmetric (fun a b : User => a._id ≠ b._id) := fun _ _ h => h.symm
  have hf : ∀ v ∈ db.users,
      (if v._id == u2._id then u2 else v).email = v.email ∧
      (if v._id == u2._id then u2 else v)._id = v._id := by
    intro v hv
    by_cases hvid : (v._id == u2._id) = true
    · have hveq : v = u := by
        have hvu : v._id = u._id := by rw [← hid]; exact eq_of_beq hvid
        by_contra hne
        exact (hi.forall hsym hv hmem hne) hvu
      rw [if_pos hvid, hveq, hemail, hid]
      exact ⟨rfl, rfl⟩
    · rw [if_neg hvid]
      exact ⟨rfl, rfl⟩
  refine ⟨?_, ?_, ?_⟩
  · rw [updateUser]
    rw [List.pairwise_map]
    refine List.Pairwise.imp_of_mem ?_ he
    intro a b ha hb hab
    rw [(hf a ha).1, (hf b hb).1]
    exact hab
  · rw [updateUser]
    rw [List.pairwise_map]
    refine List.Pairwise.imp_of_mem ?_ hi
    intro a b ha hb hab
    rw [(hf a ha).2, (hf b hb).2]
    exact hab
  · intro w hw
    rw [updateUser] at hw
    simp only [List.mem_map] at hw
    obtain ⟨v, hv, hvw⟩ := hw
    subst hvw
    show (if v._id == u2._id then u2 else v)._id < (updateUser db u2).nextId
    rw [(hf v hv).2]
    exact hn v hv

lemma storeInv_applyOp (db : DB) (op : Op) (hinv : StoreInv db) :
    StoreInv (applyOp db op) := by
  cases op with
  | signup secret salt now createErr name email password =>
    show StoreInv (signup db secret salt now createErr name email password).2
    unfold signup
    by_cases h1 : (jsFalsy name || jsFalsy email || jsFalsy password) = true
    · rw [if_pos h1]
      exact hinv
    · rw [if_neg h1]
      rcases hfe : findByEmail db (email.getD "") with _ | u
      · dsimp only
        cases createErr with
        | some m => exact hinv
        | none =>
          exact storeInv_createUser db (name.getD "") (email.getD "")
            (some (bcryptHash salt (password.getD ""))) none "local" now hfe hinv
      · exact hinv
  | googleAuth secret now credential ticket =>
    show StoreInv (googleAuth db secret now credential ticket).2
    unfold googleAuth
    by_cases h1 : jsFalsy credential = true
    · rw [if_pos h1]
      exact hinv
    · rw [if_neg h1]
      cases ticket with
      | error e => exact hinv
      | ok payload =>
        dsimp only
        rcases hfe : findByEmail db payload.email with _ | u
        · dsimp only
          exact storeInv_createUser db payload.name payload.email none
            (some payload.sub) "google" now hfe hinv
        · dsimp only
          by_cases hloc : (u.authProvider == "local") = true
          · rw [if_pos hloc]
            exact storeInv_updateUser db u
              { u with googleId := some payload.sub, authProvider := "google" }
              (List.mem_of_find?_eq_some hfe) rfl rfl hinv
          · rw [if_neg hloc]
            exact hinv

lemma storeInv_applyOps (db : DB) (ops : List Op) (hinv : StoreInv db) :
    StoreInv (applyOps db ops) := by
  induction ops generalizing db with
  | nil => exact hinv
  | cons op rest ih => exact ih _ (storeInv_applyOp db op hinv)

lemma filter_email_length (e : String) (l : List User)
    (hp : l.Pairwise (fun a b => a.email ≠ b.email))
    (u : User) (hu : u ∈ l) (he : u.email = e) :
    (l.filter (fun v => v.email == e)).length = 1 := by
  induction l with
  | nil => simp at hu
  | cons x xs ih =>
    obtain ⟨hx, hxs⟩ := List.pairwise_cons.mp hp
    rcases List.mem_cons.mp hu with rfl | hmem
    · have hue : (u.email == e) = true := beq_iff_eq.mpr he
      rw [List.filter_cons, if_pos hue]
      have hnil : xs.filter (fun v => v.email == e) = [] := by
        rw [List.filter_eq_nil_iff]
        intro b hb
        have hne : u.email ≠ b.email := hx b hb
        rw [he] at hne
        simp only [Bool.not_eq_true, beq_eq_false_iff_ne, ne_eq]
        exact fun hc => hne hc.symm
      rw [hnil]
      rfl
    · have hxe : (x.email == e) = false := by
        have hne : x.email ≠ u.email := hx u hmem
        rw [he] at hne
        exact beq_eq_false_iff_ne.mpr hne
      have hxe2 : ¬((x.email == e) = true) := by
        rw [hxe]
        exact Bool.false_ne_true
      rw [List.filter_cons, if_neg hxe2]
      exact ih hxs hmem

/-! ### Sample store states used as concrete inputs -/

/-- A locally-registered user whose stored hash verifies "secret123". -/
def annLocal : User :=
  ⟨0, "Ann", "ann@x.com", some (bcryptHash "salt" "secret123"), none, "local", 0⟩

/-- A store holding only `annLocal`. -/
def dbLocal : DB := ⟨[annLocal], 1⟩

/-- A federated-only user: no password, Google provider. -/
def gUser : User := ⟨0, "G", "g@x.com", none, some "sub0", "google", 0⟩

/-- A store holding only `gUser`. -/
def dbG : DB := ⟨[gUser], 1⟩

/-! ### Claim theorems -/

/-- C1 counterexample: the claim is false on the code.  Against a
federated-only identity, `login` answers 401 with the message
"Please sign in with Google", while a non-existent email gets 401
"Invalid credentials": same status code, but distinguishable error
messages, so the caller can tell the federated-only case apart. -/
theorem login_federated_message_distinct :
    resMessage (login dbG "sec" 0 (some "g@x.com") (some "pw"))
      = some "Please sign in with Google" ∧
    resMessage (login dbG "sec" 0 (some "ghost@x.com") (some "pw"))
      = some "Invalid credentials" ∧
    (login dbG "sec" 0 (some "g@x.com") (some "pw")).status
      = (login dbG "sec" 0 (some "ghost@x.com") (some "pw")).status ∧
    resMessage (login dbG "sec" 0 (some "g@x.com") (some "pw"))
      ≠ resMessage (login dbG "sec" 0 (some "ghost@x.com") (some "pw")) := by
  refine ⟨rfl, rfl, rfl, by decide⟩

/-- C1 amended: `login` with an unknown email and `login` with a known email
whose password check fails return the identical 401 "Invalid credentials"
response; `login` against a federated-only identity with no password also
returns status 401, but with the distinct message "Please sign in with
Google", so that case is distinguishable by the caller. -/
theorem login_error_cases (db : DB) (secret : String) (now : Nat)
    (email password : Option String)
    (he : jsFalsy email = false) (hp : jsFalsy password = false) :
    (findByEmail db (email.getD "") = none →
      login db secret now email password = errRes 401 "Invalid credentials") ∧
    (∀ u, findByEmail db (email.getD "") = some u →
      (u.authProvider == "google" && jsFalsy u.password) = false →
      bcryptCompareOpt (password.getD "") u.password = false →
      login db secret now email password = errRes 401 "Invalid credentials") ∧
    (∀ u, findByEmail db (email.getD "") = some u →
      u.authProvider = "google" → jsFalsy u.password = true →
      login db secret now email password = errRes 401 "Please sign in with Google") := by
  have hc : ¬((jsFalsy email || jsFalsy password) = true) := by simp [he, hp]
  refine ⟨?_, ?_, ?_⟩
  · intro hfe
    unfold login
    rw [if_neg hc, hfe]
  · intro u hfe hgate hcmp
    unfold login
    rw [if_neg hc, hfe]
    dsimp only
    rw [hgate]
    rw [if_neg Bool.false_ne_true, hcmp]
    rfl
  · intro u hfe hgp hfp
    unfold login
    rw [if_neg hc, hfe]
    dsimp only
    have hcond : (u.authProvider == "google" && jsFalsy u.password) = true := by
      simp [hgp, hfp]
    rw [if_pos hcond]

/-- C1 amended, witness at concrete inputs: all three error cases of
`login_error_cases` exercised on concrete stores. -/
theorem login_error_cases_witness :
    jsFalsy (some "a@x.com") = false ∧
    login emptyDB "s" 0 (some "a@x.com") (some "pw") = errRes 401 "Invalid credentials" ∧
    bcryptCompareOpt "wrong" annLocal.password = false ∧
    login dbLocal "s" 0 (some "ann@x.com") (some "wrong") = errRes 401 "Invalid credentials" ∧
    login dbG "s" 0 (some "g@x.com") (some "pw") = errRes 401 "Please sign in with Google" := by
  refine ⟨by decide, ?_, by decide, ?_, ?_⟩
  · exact (login_error_cases emptyDB "s" 0 (some "a@x.com") (some "pw")
      (by decide) (by decide)).1 rfl
  · exact (login_error_cases dbLocal "s" 0 (some "ann@x.com") (some "wrong")
      (by decide) (by decide)).2.1 annLocal rfl (by decide) (by decide)
  · exact (login_error_cases dbG "s" 0 (some "g@x.com") (some "pw")
      (by decide) (by decide)).2.2 gUser rfl rfl rfl

/-- C3: `verifyToken` answers 400 "Token is required" when the token is
absent; any verifier failure (malformed, signature-invalid or expired)
gets the single 401 "Invalid or expired token"; a verified token whose
embedded id resolves to no identity gets 401 "Invalid token"; on success
the response is 200 with the identity summary and its user object carries
only id, name and email — no password hash. -/
theorem verifyToken_cases (db : DB) (secret : String) (now : Nat) :
    (verifyToken db secret now none = errRes 400 "Token is required") ∧
    (∀ t e, jwtVerify secret now t = .error e →
      verifyToken db secret now (some t) = errRes 401 "Invalid or expired token") ∧
    (∀ t p, jwtVerify secret now t = .ok p → findById db p.id = none →
      verifyToken db secret now (some t) = errRes 401 "Invalid token") ∧
    (∀ t p u, jwtVerify secret now t = .ok p → findById db p.id = some u →
      verifyToken db secret now (some t)
        = ⟨200, .obj [("success", .jbool true),
            ("data", .obj [("user", userSummary u)])]⟩ ∧
      resUserKeys (verifyToken db secret now (some t)) = ["id", "name", "email"]) := by
  refine ⟨rfl, ?_, ?_, ?_⟩
  · intro t e hv
    unfold verifyToken
    dsimp only
    rw [hv]
  · intro t p hv hf
    unfold verifyToken
    dsimp only
    rw [hv]
    dsimp only
    rw [hf]
  · intro t p u hv hf
    have heq : verifyToken db secret now (some t)
        = ⟨200, .obj [("success", .jbool true),
            ("data", .obj [("user", userSummary u)])]⟩ := by
      unfold verifyToken
      dsimp only
      rw [hv]
      dsimp only
      rw [hf]
    refine ⟨heq, ?_⟩
    rw [heq]
    rfl

/-- C3 witness: the four cases of `verifyToken_cases` at concrete inputs. -/
theorem verifyToken_cases_witness :
    verifyToken dbLocal "sec" 1 none = errRes 400 "Token is required" ∧
    jwtVerify "sec" 1 (Token.malformed "zzz") = .error .malformed ∧
    verifyToken dbLocal "sec" 1 (some (Token.malformed "zzz"))
      = errRes 401 "Invalid or expired token" ∧
    verifyToken dbLocal "sec" 1 (some (generateToken "sec" 0 5))
      = errRes 401 "Invalid token" ∧
    verifyToken dbLocal "sec" 1 (some (generateToken "sec" 0 0))
      = ⟨200, .obj [("success", .jbool true),
          ("data", .obj [("user", userSummary annLocal)])]⟩ := by
  refine ⟨(verifyToken_cases dbLocal "sec" 1).1, rfl, ?_, ?_, ?_⟩
  · exact (verifyToken_cases dbLocal "sec" 1).2.1 (Token.malformed "zzz") .malformed rfl
  · exact (verifyToken_cases dbLocal "sec" 1).2.2.1 (generateToken "sec" 0 5)
      ⟨5, 0, 0 + thirtyDays⟩ rfl rfl
  · exact ((verifyToken_cases dbLocal "sec" 1).2.2.2 (generateToken "sec" 0 0)
      ⟨0, 0, 0 + thirtyDays⟩ annLocal rfl rfl).1

/-- C4: `signup` fails 400 "Please provide all required fields" when any of
name, email, password is absent or empty; fails 400 "User already exists
with this email" when an identity with that email exists; otherwise hashes
the password, creates a `local` identity and answers 201 with the identity
summary and a freshly issued token. -/
theorem signup_cases (db : DB) (secret salt : String) (now : Nat)
    (name email password : Option String) :
    ((jsFalsy name = true ∨ jsFalsy email = true ∨ jsFalsy password = true) →
      signup db secret salt now none name email password
        = (errRes 400 "Please provide all required fields", db)) ∧
    (∀ u, jsFalsy name = false → jsFalsy email = false → jsFalsy password = false →
      findByEmail db (email.getD "") = some u →
      signup db secret salt now none name email password
        = (errRes 400 "User already exists with this email", db)) ∧
    (jsFalsy name = false → jsFalsy email = false → jsFalsy password = false →
      findByEmail db (email.getD "") = none →
      signup db secret salt now none name email password
        = (⟨201, .obj [("success", .jbool true),
            ("message", .str "User created successfully"),
            ("data", .obj [
              ("user", userSummary ⟨db.nextId, name.getD "", email.getD "",
                some (bcryptHash salt (password.getD "")), none, "local", now⟩),
              ("token", .tok (generateToken secret now db.nextId))])]⟩,
          ⟨db.users ++ [⟨db.nextId, name.getD "", email.getD "",
            some (bcryptHash salt (password.getD "")), none, "local", now⟩],
           db.nextId + 1⟩)) := by
  refine ⟨?_, ?_, ?_⟩
  · intro h
    have hc : (jsFalsy name || jsFalsy email || jsFalsy password) = true := by
      rcases h with h | h | h <;> simp [h]
    unfold signup
    rw [if_pos hc]
  · intro u h1 h2 h3 hfe
    have hc : ¬((jsFalsy name || jsFalsy email || jsFalsy password) = true) := by
      simp [h1, h2, h3]
    unfold signup
    rw [if_neg hc, hfe]
  · intro h1 h2 h3 hfe
    have hc : ¬((jsFalsy name || jsFalsy email || jsFalsy password) = true) := by
      simp [h1, h2, h3]
    unfold signup
    rw [if_neg hc, hfe]
    rfl

/-- C4 witness: a fresh signup on the empty store at concrete inputs. -/
theorem signup_cases_witness :
    jsFalsy (some "Ann") = false ∧
    findByEmail emptyDB "ann@x.com" = none ∧
    signup emptyDB "sec" "salt" 5 none (some "Ann") (some "ann@x.com") (some "pw")
      = (⟨201, .obj [("success", .jbool true),
          ("message", .str "User created successfully"),
          ("data", .obj [
            ("user", userSummary ⟨0, "Ann", "ann@x.com",
              some (bcryptHash "salt" "pw"), none, "local", 5⟩),
            ("token", .tok (generateToken "sec" 5 0))])]⟩,
        ⟨[⟨0, "Ann", "ann@x.com", some (bcryptHash "salt" "pw"), none, "local", 5⟩], 1⟩) := by
  refine ⟨by decide, rfl, ?_⟩
  exact (signup_cases emptyDB "sec" "salt" 5 (some "Ann") (some "ann@x.com")
    (some "pw")).2.2 (by decide) (by decide) (by decide) rfl

/-- C6: a token issued by `generateToken` binds the user id and an absolute
expiry exactly 30 days (2592000 seconds) after issuance, and `jwtVerify`
rejects with the expiry failure every token whose expiry is in the past,
even when its signature is valid. -/
theorem token_expiry_thirty_days (secret : String) (now userId : Nat) :
    generateToken secret now userId
      = Token.valid ⟨userId, now, now + thirtyDays⟩
          (jwtMac secret ⟨userId, now, now + thirtyDays⟩) ∧
    thirtyDays = 30 * 24 * 60 * 60 ∧
    (∀ (p : JwtPayload) (later : Nat), p.exp < later →
      jwtVerify secret later (Token.valid p (jwtMac secret p)) = .error .expired) := by
  refine ⟨rfl, rfl, ?_⟩
  intro p later hlt
  unfold jwtVerify
  dsimp only
  have h1 : ¬(jwtMac secret p ≠ jwtMac secret p) := fun h => h rfl
  rw [if_neg h1, if_pos (Nat.le_of_lt hlt)]

/-- C6 witness: a token issued at time 0 is rejected as expired at a later
time past its 30-day expiry, despite a valid signature. -/
theorem token_expiry_thirty_days_witness :
    (0 + thirtyDays < 2600000) ∧
    jwtVerify "sec" 2600000
      (Token.valid ⟨7, 0, 0 + thirtyDays⟩ (jwtMac "sec" ⟨7, 0, 0 + thirtyDays⟩))
      = .error .expired := by
  refine ⟨by decide, ?_⟩
  exact (token_expiry_thirty_days "sec" 0 7).2.2 ⟨7, 0, 0 + thirtyDays⟩ 2600000 (by decide)

lemma resUserKeys_signup (db : DB) (secret salt : String) (now : Nat)
    (createErr name email password : Option String) :
    resUserKeys (signup db secret salt now createErr name email password).1 = []
    ∨ resUserKeys (signup db secret salt now createErr name email password).1
      = ["id", "name", "email"] := by
  unfold signup
  split
  · left; rfl
  · split
    · left; rfl
    · split
      · left; rfl
      · right; rfl

lemma resUserKeys_login (db : DB) (secret : String) (now : Nat)
    (email password : Option String) :
    resUserKeys (login db secret now email password) = []
    ∨ resUserKeys (login db secret now email password) = ["id", "name", "email"] := by
  unfold login
  split
  · left; rfl
  · split
    · left; rfl
    · split
      · left; rfl
      · split
        · left; rfl
        · right; rfl

lemma resUserKeys_googleAuth (db : DB) (secret : String) (now : Nat)
    (credential : Option String) (ticket : Except Unit GooglePayload) :
    resUserKeys (googleAuth db secret now credential ticket).1 = []
    ∨ resUserKeys (googleAuth db secret now credential ticket).1
      = ["id", "name", "email"] := by
  unfold googleAuth
  split
  · left; rfl
  · split
    · left; rfl
    · right; rfl

lemma resUserKeys_verifyToken (db : DB) (secret : String) (now : Nat)
    (token : Option Token) :
    resUserKeys (verifyToken db secret now token) = []
    ∨ resUserKeys (verifyToken db secret now token) = ["id", "name", "email"] := by
  unfold verifyToken
  split
  · left; rfl
  · split
    · left; rfl
    · split
      · left; rfl
      · right; rfl

lemma resUserKeys_getUserProfile (db : DB) (userId : Nat) :
    resUserKeys (getUserProfile db userId) = []
    ∨ resUserKeys (getUserProfile db userId) = ["id", "name", "email", "createdAt"] := by
  unfold getUserProfile
  split
  · left; rfl
  · right; rfl

/-- C7: every identity-summary payload produced by signup, login,
googleAuth (federated login), verifyToken and getUserProfile carries only
the keys id, name, email (plus createdAt for the profile); in particular
the stored `password` hash and `googleId` (federated subject id) fields
never appear, for all inputs and store states. -/
theorem responses_exclude_secret_fields :
    (∀ db secret salt now createErr name email password,
      "password" ∉ resUserKeys (signup db secret salt now createErr name email password).1 ∧
      "googleId" ∉ resUserKeys (signup db secret salt now createErr name email password).1) ∧
    (∀ db secret now email password,
      "password" ∉ resUserKeys (login db secret now email password) ∧
      "googleId" ∉ resUserKeys (login db secret now email password)) ∧
    (∀ db secret now credential ticket,
      "password" ∉ resUserKeys (googleAuth db secret now credential ticket).1 ∧
      "googleId" ∉ resUserKeys (googleAuth db secret now credential ticket).1) ∧
    (∀ db secret now token,
      "password" ∉ resUserKeys (verifyToken db secret now token) ∧
      "googleId" ∉ resUserKeys (verifyToken db secret now token)) ∧
    (∀ db userId,
      "password" ∉ resUserKeys (getUserProfile db userId) ∧
      "googleId" ∉ resUserKeys (getUserProfile db userId)) := by
  refine ⟨?_, ?_, ?_, ?_, ?_⟩
  · intro db secret salt now createErr name email password
    rcases resUserKeys_signup db secret salt now createErr name email password with h | h <;>
      rw [h] <;> exact ⟨by decide, by decide⟩
  · intro db secret now email password
    rcases resUserKeys_login db secret now email password with h | h <;>
      rw [h] <;> exact ⟨by decide, by decide⟩
  · intro db secret now credential ticket
    rcases resUserKeys_googleAuth db secret now credential ticket with h | h <;>
      rw [h] <;> exact ⟨by decide, by decide⟩
  · intro db secret now token
    rcases resUserKeys_verifyToken db secret now token with h | h <;>
      rw [h] <;> exact ⟨by decide, by decide⟩
  · intro db userId
    rcases resUserKeys_getUserProfile db userId with h | h <;>
      rw [h] <;> exact ⟨by decide, by decide⟩

/-- C10: when a federated login's verified email matches an existing
identity whose provider is not `local`, the store is left entirely
unchanged — even when the asserted subject id differs from the stored
one — and a token bound to that identity's id is still issued with a 200
response. -/
theorem federated_nonlocal_frame (db : DB) (secret : String) (now : Nat)
    (credential : String) (payload : GooglePayload) (u : User)
    (hc : credential ≠ "")
    (hfind : findByEmail db payload.email = some u)
    (hnl : u.authProvider ≠ "local") :
    (googleAuth db secret now (some credential) (.ok payload)).2 = db ∧
    (googleAuth db secret now (some credential) (.ok payload)).1.status = 200 ∧
    resToken (googleAuth db secret now (some credential) (.ok payload)).1
      = some (generateToken secret now u._id) := by
  have hcf : ¬(jsFalsy (some credential) = true) := by simp [jsFalsy, hc]
  have hlocF : ¬((u.authProvider == "local") = true) := by simp [hnl]
  unfold googleAuth
  rw [if_neg hcf]
  dsimp only
  rw [hfind]
  dsimp only
  rw [if_neg hlocF]
  exact ⟨rfl, rfl, rfl⟩

/-- C10 witness: a federated login for the stored non-local identity with a
different asserted subject id ("subNEW" vs stored "sub0") leaves the store
unchanged and issues a token for the stored identity's id. -/
theorem federated_nonlocal_frame_witness :
    gUser.authProvider ≠ "local" ∧
    (googleAuth dbG "sec" 3 (some "cred") (.ok ⟨"g@x.com", "G", "subNEW"⟩)).2 = dbG ∧
    resToken (googleAuth dbG "sec" 3 (some "cred") (.ok ⟨"g@x.com", "G", "subNEW"⟩)).1
      = some (generateToken "sec" 3 0) := by
  have h := federated_nonlocal_frame dbG "sec" 3 "cred" ⟨"g@x.com", "G", "subNEW"⟩
    gUser (by decide) rfl (by decide)
  exact ⟨by decide, h.1, h.2.2⟩

/-- C2: a federated login whose verified email matches an existing `local`
identity mutates that identity in place: the provider becomes `google`
(federated), the stored subject id becomes the asserted one, the password
hash is retained, and a subsequent password login with the original
password still succeeds (status 200). -/
theorem federated_link_retains_password (db : DB) (secret : String)
    (now now2 : Nat) (credential : String) (payload : GooglePayload)
    (u : User) (pw : String)
    (hc : credential ≠ "")
    (hids : db.users.Pairwise (fun a b => a._id ≠ b._id))
    (hfind : findByEmail db payload.email = some u)
    (hlocal : u.authProvider = "local")
    (hpw : bcryptCompareOpt pw u.password = true)
    (hene : payload.email ≠ "") (hpne : pw ≠ "") :
    findByEmail (googleAuth db secret now (some credential) (.ok payload)).2 payload.email
      = some { u with googleId := some payload.sub, authProvider := "google" } ∧
    ({ u with googleId := some payload.sub, authProvider := "google" } : User).password
      = u.password ∧
    (login (googleAuth db secret now (some credential) (.ok payload)).2 secret now2
      (some payload.email) (some pw)).status = 200 := by
  have hcf : ¬(jsFalsy (some credential) = true) := by simp [jsFalsy, hc]
  have hloc2 : (u.authProvider == "local") = true := beq_iff_eq.mpr hlocal
  have hdb2 : (googleAuth db secret now (some credential) (.ok payload)).2
      = updateUser db { u with googleId := some payload.sub, authProvider := "google" } := by
    unfold googleAuth
    rw [if_neg hcf]
    dsimp only
    rw [hfind]
    dsimp only
    rw [if_pos hloc2]
  have hfind2 : findByEmail
      (updateUser db { u with googleId := some payload.sub, authProvider := "google" })
      payload.email
      = some { u with googleId := some payload.sub, authProvider := "google" } := by
    unfold findByEmail updateUser
    exact find?_update_eq db.users u
      { u with googleId := some payload.sub, authProvider := "google" }
      payload.email hfind hids rfl rfl
  refine ⟨by rw [hdb2]; exact hfind2, rfl, ?_⟩
  rw [hdb2]
  have hnf : jsFalsy
      ({ u with googleId := some payload.sub, authProvider := "google" } : User).password
      = false := bcryptCompareOpt_true_not_falsy pw u.password hpw
  have hcond : ¬((jsFalsy (some payload.email) || jsFalsy (some pw)) = true) := by
    simp [jsFalsy, hene, hpne]
  unfold login
  rw [if_neg hcond]
  dsimp only [Option.getD]
  rw [hfind2]
  dsimp only
  have hgate : (({ u with googleId := some payload.sub, authProvider := "google" } : User).authProvider
      == "google" && jsFalsy ({ u with googleId := some payload.sub, authProvider := "google" } : User).password) = false := by
    rw [hnf]
    simp
  rw [hgate, if_neg Bool.false_ne_true]
  have hcmp : bcryptCompareOpt pw
      ({ u with googleId := some payload.sub, authProvider := "google" } : User).password
      = true := hpw
  rw [hcmp]
  rfl

/-- C2 witness: linking the stored local identity via federated login, then
logging in with the original password, on concrete data. -/
theorem federated_link_retains_password_witness :
    bcryptCompareOpt "secret123" annLocal.password = true ∧
    findByEmail (googleAuth dbLocal "sec" 10 (some "cred")
        (.ok ⟨"ann@x.com", "Ann", "subX"⟩)).2 "ann@x.com"
      = some { annLocal with googleId := some "subX", authProvider := "google" } ∧
    (login (googleAuth dbLocal "sec" 10 (some "cred")
        (.ok ⟨"ann@x.com", "Ann", "subX"⟩)).2 "sec" 20
      (some "ann@x.com") (some "secret123")).status = 200 := by
  have h := federated_link_retains_password dbLocal "sec" 10 20 "cred"
    ⟨"ann@x.com", "Ann", "subX"⟩ annLocal "secret123" (by decide)
    (List.pairwise_singleton _ _) rfl rfl (by decide) (by decide) (by decide)
  exact ⟨by decide, h.1, h.2.2⟩

/-- C5: after any sequence of signup and federated-login operations starting
from the empty store, no two stored identities share an email; and a signup
against an already-used email returns the 400 "User already exists with this
email" failure, leaves the store unchanged, and the store keeps exactly one
identity with that email. -/
theorem email_uniqueness :
    (∀ ops, (applyOps emptyDB ops).users.Pairwise (fun a b => a.email ≠ b.email)) ∧
    (∀ ops secret salt now createErr name password e,
      jsFalsy name = false → jsFalsy password = false → e ≠ "" →
      (∃ u ∈ (applyOps emptyDB ops).users, u.email = e) →
      (signup (applyOps emptyDB ops) secret salt now createErr name (some e) password).1
        = errRes 400 "User already exists with this email" ∧
      (signup (applyOps emptyDB ops) secret salt now createErr name (some e) password).2
        = applyOps emptyDB ops ∧
      ((signup (applyOps emptyDB ops) secret salt now createErr name (some e) password).2.users.filter
        (fun v => v.email == e)).length = 1) := by
  have hinv : ∀ ops, StoreInv (applyOps emptyDB ops) :=
    fun ops => storeInv_applyOps emptyDB ops storeInv_emptyDB
  refine ⟨fun ops => (hinv ops).1, ?_⟩
  intro ops secret salt now createErr name password e hn hp hene hex
  have hfs : ∃ w, findByEmail (applyOps emptyDB ops) e = some w := by
    obtain ⟨u, hu, hue⟩ := hex
    have hsome : ((applyOps emptyDB ops).users.find? (fun v => v.email == e)).isSome := by
      rw [List.find?_isSome]
      exact ⟨u, hu, beq_iff_eq.mpr hue⟩
    obtain ⟨w, hw⟩ := Option.isSome_iff_exists.mp hsome
    exact ⟨w, hw⟩
  obtain ⟨w, hw⟩ := hfs
  have hce : jsFalsy (some e) = false := beq_eq_false_iff_ne.mpr hene
  have hcond : ¬((jsFalsy name || jsFalsy (some e) || jsFalsy password) = true) := by
    simp [hn, hp, hce]
  have hsg : signup (applyOps emptyDB ops) secret salt now createErr name (some e) password
      = (errRes 400 "User already exists with this email", applyOps emptyDB ops) := by
    unfold signup
    rw [if_neg hcond]
    dsimp only [Option.getD]
    rw [hw]
  obtain ⟨u, hu, hue⟩ := hex
  refine ⟨by rw [hsg], by rw [hsg], ?_⟩
  rw [hsg]
  exact filter_email_length e (applyOps emptyDB ops).users (hinv ops).1 u hu hue

/-- C5 witness: a signup creating "ann@x.com", then a second signup with the
same email: it fails with the email-taken error and the store keeps exactly
one identity with that email. -/
theorem email_uniqueness_witness :
    (∃ u ∈ (applyOps emptyDB
        [Op.signup "s" "salt" 0 none (some "Ann") (some "ann@x.com") (some "pw")]).users,
      u.email = "ann@x.com") ∧
    (signup (applyOps emptyDB
        [Op.signup "s" "salt" 0 none (some "Ann") (some "ann@x.com") (some "pw")])
      "s2" "salt2" 1 none (some "Bob") (some "ann@x.com") (some "pw2")).1
      = errRes 400 "User already exists with this email" ∧
    ((signup (applyOps emptyDB
        [Op.signup "s" "salt" 0 none (some "Ann") (some "ann@x.com") (some "pw")])
      "s2" "salt2" 1 none (some "Bob") (some "ann@x.com") (some "pw2")).2.users.filter
      (fun v => v.email == "ann@x.com")).length = 1 := by
  have h := email_uniqueness.2
    [Op.signup "s" "salt" 0 none (some "Ann") (some "ann@x.com") (some "pw")]
    "s2" "salt2" 1 none (some "Bob") (some "pw2") "ann@x.com"
    (by decide) (by decide) (by decide) (by decide)
  exact ⟨by decide, h.1, h.2.2⟩

/-- C8 counterexample: the claim is false on the code.  When the support
store's create call throws (message "boom"), `createSupportRequest` answers
500 but its body carries the underlying exception's message verbatim in an
`error` field — internal detail is leaked to the caller. -/
theorem support_error_leaks_message :
    (createSupportRequest emptySupportDB [] (some "subj") (some "desc") none
      (some "e@x.com") none (some "boom")).1.status = 500 ∧
    resErrorField (createSupportRequest emptySupportDB [] (some "subj") (some "desc") none
      (some "e@x.com") none (some "boom")).1 = some "boom" := ⟨rfl, rfl⟩

/-- C8 amended: every operation catches store/verifier failures at the
service boundary.  The auth handlers map them to a fixed response carrying
no internal detail — the response does not depend on the failure's message
(signup 500 "Error creating user", login 500 "Error logging in",
googleAuth 500 "Error with Google authentication", verifyToken 401
"Invalid or expired token", getProfile 500 "Error fetching user profile").
The support handlers answer 500 but include the underlying exception's
message in the response body's `error` field, leaking internal detail. -/
theorem upstream_error_mapping :
    (∀ (db : DB) (secret salt : String) (now : Nat)
        (name email password : Option String) (e : String),
      jsFalsy name = false → jsFalsy email = false → jsFalsy password = false →
      findByEmail db (email.getD "") = none →
      (signup db secret salt now (some e) name email password).1
        = errRes 500 "Error creating user" ∧
      (signup db secret salt now (some e) name email password).2 = db) ∧
    (∀ (db : DB) (secret : String) (now : Nat) (e : String)
        (email password : Option String),
      loginHandler db secret now (some e) email password
        = errRes 500 "Error logging in") ∧
    (∀ (db : DB) (secret : String) (now : Nat) (credential : Option String),
      jsFalsy credential = false →
      (googleAuth db secret now credential (.error ())).1
        = errRes 500 "Error with Google authentication" ∧
      (googleAuth db secret now credential (.error ())).2 = db) ∧
    (∀ (db : DB) (secret : String) (now : Nat) (e : String) (token : Option Token),
      verifyTokenHandler db secret now (some e) token
        = errRes 401 "Invalid or expired token") ∧
    (∀ (db : DB) (e : String) (userId : Nat),
      getUserProfileHandler db (some e) userId
        = errRes 500 "Error fetching user profile") ∧
    (∀ sdb files subject description phoneNumber email userId (e : String),
      runUpload files = none →
      jsFalsy subject = false → jsFalsy description = false → jsFalsy email = false →
      (createSupportRequest sdb files subject description phoneNumber email userId
        (some e)).1.status = 500 ∧
      resErrorField (createSupportRequest sdb files subject description phoneNumber email
        userId (some e)).1 = some e) ∧
    (∀ e : String,
      (getAllSupportRequestsCatch e).status = 500 ∧
      resErrorField (getAllSupportRequestsCatch e) = some e ∧
      (getSupportRequestCatch e).status = 500 ∧
      resErrorField (getSupportRequestCatch e) = some e ∧
      (updateSupportRequestStatusCatch e).status = 500 ∧
      resErrorField (updateSupportRequestStatusCatch e) = some e ∧
      (deleteSupportRequestCatch e).status = 500 ∧
      resErrorField (deleteSupportRequestCatch e) = some e) := by
  refine ⟨?_, ?_, ?_, ?_, ?_, ?_, ?_⟩
  · intro db secret salt now name email password e h1 h2 h3 hfe
    have hc : ¬((jsFalsy name || jsFalsy email || jsFalsy password) = true) := by
      simp [h1, h2, h3]
    have hsg : signup db secret salt now (some e) name email password
        = (errRes 500 "Error creating user", db) := by
      unfold signup
      rw [if_neg hc, hfe]
    exact ⟨by rw [hsg], by rw [hsg]⟩
  · intro db secret now e email password
    rfl
  · intro db secret now credential hcred
    have hc : ¬(jsFalsy credential = true) := by simp [hcred]
    have hga : googleAuth db secret now credential (.error ())
        = (errRes 500 "Error with Google authentication", db) := by
      unfold googleAuth
      rw [if_neg hc]
    exact ⟨by rw [hga], by rw [hga]⟩
  · intro db secret now e token
    rfl
  · intro db e userId
    rfl
  · intro sdb files subject description phoneNumber email userId e hup h1 h2 h3
    have hc : ¬((jsFalsy subject || jsFalsy description || jsFalsy email) = true) := by
      simp [h1, h2, h3]
    have hcs : createSupportRequest sdb files subject description phoneNumber email userId
        (some e)
        = (⟨500, .obj [("success", .jbool false),
            ("message", .str "Failed to submit support request"),
            ("error", .str e)]⟩, sdb) := by
      unfold createSupportRequest
      rw [hup]
      dsimp only
      rw [if_neg hc]
    exact ⟨by rw [hcs], by rw [hcs]; rfl⟩
  · intro e
    exact ⟨rfl, rfl, rfl, rfl, rfl, rfl, rfl, rfl⟩

/-- C8 amended witness: every branch of `upstream_error_mapping` at
concrete inputs with failure message "boom". -/
theorem upstream_error_mapping_witness :
    (signup emptyDB "s" "salt" 0 (some "boom") (some "A") (some "a@x.com") (some "pw")).1
      = errRes 500 "Error creating user" ∧
    loginHandler emptyDB "s" 0 (some "boom") (some "a@x.com") (some "pw")
      = errRes 500 "Error logging in" ∧
    (googleAuth emptyDB "s" 0 (some "cred") (.error ())).1
      = errRes 500 "Error with Google authentication" ∧
    verifyTokenHandler emptyDB "s" 0 (some "boom") none
      = errRes 401 "Invalid or expired token" ∧
    getUserProfileHandler emptyDB (some "boom") 0
      = errRes 500 "Error fetching user profile" ∧
    resErrorField (createSupportRequest emptySupportDB [] (some "subj") (some "desc") none
      (some "e@x.com") none (some "boom")).1 = some "boom" ∧
    resErrorField (getAllSupportRequestsCatch "boom") = some "boom" := by
  refine ⟨?_, ?_, ?_, ?_, ?_, ?_, ?_⟩
  · exact (upstream_error_mapping.1 emptyDB "s" "salt" 0 (some "A") (some "a@x.com")
      (some "pw") "boom" (by decide) (by decide) (by decide) rfl).1
  · exact upstream_error_mapping.2.1 emptyDB "s" 0 "boom" (some "a@x.com") (some "pw")
  · exact (upstream_error_mapping.2.2.1 emptyDB "s" 0 (some "cred") (by decide)).1
  · exact upstream_error_mapping.2.2.2.1 emptyDB "s" 0 "boom" none
  · exact upstream_error_mapping.2.2.2.2.1 emptyDB "boom" 0
  · exact (upstream_error_mapping.2.2.2.2.2.1 emptySupportDB [] (some "subj") (some "desc")
      none (some "e@x.com") none "boom" rfl (by decide) (by decide) (by decide)).2
  · exact (upstream_error_mapping.2.2.2.2.2.2 "boom").2.1

/-- C9: an upload violating the configured limits — more than 5 files, a
file over 5 MB, or a file rejected by `fileFilter` (extension or declared
mimetype not matching the allowed-types regex) — makes the whole request
fail with status 400 and leaves the support store unchanged; an upload
within the limits with the required fields present creates exactly the
support-request record with those attachments (status 201). -/
theorem support_upload_limits :
    (∀ sdb files subject description phoneNumber email userId createErr,
      (maxFiles < files.length ∨ (∃ f ∈ files, maxFileSize < f.size) ∨
        (∃ f ∈ files, fileFilter f = false)) →
      (createSupportRequest sdb files subject description phoneNumber email userId
        createErr).1.status = 400 ∧
      (createSupportRequest sdb files subject description phoneNumber email userId
        createErr).2 = sdb) ∧
    (∀ sdb files subject description phoneNumber email userId,
      files.length ≤ maxFiles → (∀ f ∈ files, f.size ≤ maxFileSize) →
      (∀ f ∈ files, fileFilter f = true) →
      jsFalsy subject = false → jsFalsy description = false → jsFalsy email = false →
      (createSupportRequest sdb files subject description phoneNumber email userId
        none).1.status = 201 ∧
      (createSupportRequest sdb files subject description phoneNumber email userId
        none).2
        = ⟨sdb.requests ++ [⟨subject.getD "", description.getD "", phoneNumber.getD "",
            email.getD "",
            files.map (fun f => Attachment.mk f.originalname f.path f.mimetype f.size),
            userId⟩]⟩) := by
  refine ⟨?_, ?_⟩
  · intro sdb files subject description phoneNumber email userId createErr h
    have hcase : ∀ e, runUpload files = some e →
        (createSupportRequest sdb files subject description phoneNumber email userId
          createErr).1.status = 400 ∧
        (createSupportRequest sdb files subject description phoneNumber email userId
          createErr).2 = sdb := by
      intro e hre
      have hcs : createSupportRequest sdb files subject description phoneNumber email
          userId createErr = (uploadErrRes e, sdb) := by
        unfold createSupportRequest
        rw [hre]
      rw [hcs]
      cases e <;> exact ⟨rfl, rfl⟩
    rcases h with h1 | ⟨f, hf, hsz⟩ | ⟨f, hf, hff⟩
    · exact hcase .tooManyFiles (by unfold runUpload; rw [if_pos h1])
    · by_cases h1 : maxFiles < files.length
      · exact hcase .tooManyFiles (by unfold runUpload; rw [if_pos h1])
      · have h2 : files.any (fun f => maxFileSize < f.size) = true :=
          List.any_eq_true.mpr ⟨f, hf, decide_eq_true hsz⟩
        exact hcase .fileTooLarge (by unfold runUpload; rw [if_neg h1, if_pos h2])
    · by_cases h1 : maxFiles < files.length
      · exact hcase .tooManyFiles (by unfold runUpload; rw [if_pos h1])
      · by_cases h2 : files.any (fun f => maxFileSize < f.size) = true
        · exact hcase .fileTooLarge (by unfold runUpload; rw [if_neg h1, if_pos h2])
        · have h3 : files.any (fun f => !fileFilter f) = true :=
            List.any_eq_true.mpr ⟨f, hf, by rw [hff]; rfl⟩
          exact hcase .badType (by unfold runUpload; rw [if_neg h1, if_neg h2, if_pos h3])
  · intro sdb files subject description phoneNumber email userId hlen hsz hff hs hd he
    have hup : runUpload files = none := by
      unfold runUpload
      rw [if_neg (Nat.not_lt.mpr hlen)]
      have ha : files.any (fun f => maxFileSize < f.size) = false := by
        cases hb : files.any (fun f => maxFileSize < f.size) with
        | false => rfl
        | true =>
          obtain ⟨x, hx, hpx⟩ := List.any_eq_true.mp hb
          exact absurd (of_decide_eq_true hpx) (Nat.not_lt.mpr (hsz x hx))
      have hb : files.any (fun f => !fileFilter f) = false := by
        cases hb2 : files.any (fun f => !fileFilter f) with
        | false => rfl
        | true =>
          obtain ⟨x, hx, hpx⟩ := List.any_eq_true.mp hb2
          rw [hff x hx] at hpx
          exact absurd hpx (by decide)
      rw [if_neg (by rw [ha]; exact Bool.false_ne_true),
        if_neg (by rw [hb]; exact Bool.false_ne_true)]
    have hc : ¬((jsFalsy subject || jsFalsy description || jsFalsy email) = true) := by
      simp [hs, hd, he]
    have hcs : createSupportRequest sdb files subject description phoneNumber email
        userId none
        = (⟨201, .obj [("success", .jbool true),
            ("message", .str "Support request submitted successfully"),
            ("data", supportRequestJson ⟨subject.getD "", description.getD "",
              phoneNumber.getD "", email.getD "",
              files.map (fun f => Attachment.mk f.originalname f.path f.mimetype f.size),
              userId⟩)]⟩,
          ⟨sdb.requests ++ [⟨subject.getD "", description.getD "", phoneNumber.getD "",
            email.getD "",
            files.map (fun f => Attachment.mk f.originalname f.path f.mimetype f.size),
            userId⟩]⟩) := by
      unfold createSupportRequest
      rw [hup]
      dsimp only
      rw [if_neg hc]
    exact ⟨by rw [hcs], by rw [hcs]⟩

/-- C9 witness: a 5-MB-exceeding upload is refused with 400 and creates no
record; an in-limits jpeg upload with the required fields creates the
record with status 201. -/
theorem support_upload_limits_witness :
    (∃ f ∈ [(⟨"a.jpg", "image/jpeg", 5242881, "p"⟩ : FileInfo)], maxFileSize < f.size) ∧
    (createSupportRequest emptySupportDB [⟨"a.jpg", "image/jpeg", 5242881, "p"⟩]
      (some "s") (some "d") none (some "e@x.com") none none).1.status = 400 ∧
    (createSupportRequest emptySupportDB [⟨"a.jpg", "image/jpeg", 5242881, "p"⟩]
      (some "s") (some "d") none (some "e@x.com") none none).2 = emptySupportDB ∧
    (createSupportRequest emptySupportDB [⟨"a.jpg", "image/jpeg", 100, "p"⟩]
      (some "s") (some "d") none (some "e@x.com") none none).1.status = 201 := by
  have h1 := support_upload_limits.1 emptySupportDB
    [(⟨"a.jpg", "image/jpeg", 5242881, "p"⟩ : FileInfo)]
    (some "s") (some "d") none (some "e@x.com") none none
    (Or.inr (Or.inl (by decide)))
  have h2 := support_upload_limits.2 emptySupportDB
    [(⟨"a.jpg", "image/jpeg", 100, "p"⟩ : FileInfo)]
    (some "s") (some "d") none (some "e@x.com") none
    (by decide) (by decide) (by decide) (by decide) (by decide) (by decide)
  exact ⟨by decide, h1.1, h1.2, h2.1⟩
